import Mathlib

/-!
Shallow embedding of the route-registration core of the go-restful fork
(`web_service.go`), together with the collaborator types it uses
(`PathExpression`, `Parameter`, `RouteBuilder`, `Route`, `FilterFunction`).
The collaborator types do not appear in the sources, so they are modelled
from the specification's data model and contracts; `web_service.go` itself
is translated method by method.  Go pointer-receiver methods that mutate
the receiver become functions `WebService → ... → WebService`; pointer-receiver
methods that only read the receiver but could in principle write it are
embedded as state-passing functions returning a `WebService × result` pair,
so that frame properties are statable.  Go `nil` slices and the fatal
`log.Fatalf` abort are modelled with `List`/`Option`.
-/

/-- Modelled from the spec: the compiled form of a path template
(`PathExpression` / `NewPathExpression` are not in the sources; §4.1 of the
spec gives the compilation contract).  Only the data needed to state the
registration-time claims is kept: the source template and its `/`-separated
segment list. -/
structure PathExpression where
  source : String
  segments : List String
  deriving Repr, DecidableEq

/-- Splitting a character sequence on the `/` separator, accumulating the
current segment; the character-level equivalent of splitting a path string
on `/`. -/
def splitSlashAux : List Char → List Char → List (List Char)
  | [], acc => [acc.reverse]
  | c :: cs, acc =>
    if c = '/' then acc.reverse :: splitSlashAux cs []
    else splitSlashAux cs (c :: acc)

/-- The `/`-separated segments of a path template, as character
sequences. -/
def splitSlash (path : String) : List (List Char) :=
  splitSlashAux path.toList []

/-- Modelled from the spec: a segment of a template is a named-parameter
segment when it is written `\x7bname\x7d` or `\x7bname:regex\x7d` — it starts with an
opening brace, ends with a closing brace, and its interior holds no brace. -/
def segIsParam (seg : List Char) : Bool :=
  decide (seg.length ≥ 2) && seg.head? == some '{' && seg.getLast? == some '}' &&
    !((seg.drop 1).dropLast.any (fun c => c == '{' || c == '}'))

/-- Modelled from the spec: a segment "mixes literal and parameter syntax
ambiguously" when it contains a brace but is not a well-formed parameter
segment. -/
def segMixed (seg : List Char) : Bool :=
  (seg.any (fun c => c == '{' || c == '}')) && !(segIsParam seg)

/-- Modelled from the spec: the parameter name of a parameter segment is the
interior text up to an optional `:` that introduces an inline constraint. -/
def paramName (seg : List Char) : List Char :=
  (seg.drop 1).dropLast.takeWhile (fun c => c ≠ ':')

/-- Membership test duplicating Go-side duplicate detection for parameter
names. -/
def hasDupName : List (List Char) → Bool
  | [] => false
  | x :: xs => xs.contains x || hasDupName xs

/-- Modelled from the spec: `compile(template) -> Matcher | fails with
TemplateSyntaxError` (§4.1).  Compilation splits the template on `/` and
fails fast when a segment mixes literal and parameter syntax or when a
parameter name repeats within the template.  Well-formedness of an inline
regex constraint is outside the modelled fragment (the spec's non-goals
exclude a regular-expression engine), so every constraint string is
accepted. -/
def NewPathExpression (path : String) : Except String PathExpression :=
  let segs := splitSlash path
  if segs.any segMixed then
    Except.error "ambiguous segment"
  else if hasDupName ((segs.filter segIsParam).map paramName) then
    Except.error "duplicate parameter name"
  else
    Except.ok { source := path, segments := segs.map (fun cs => String.mk cs) }

/-- Modelled from the spec: the kind of a documentation `Parameter`
(§3: `kind: enum\x7bPath, Query, Body, Header, Form\x7d`). -/
inductive ParameterKind where
  | Path
  | Query
  | Body
  | Header
  | Form
  deriving Repr, DecidableEq

/-- Modelled from the spec: the data of a `Parameter` (§3).  The Go sources
build a `ParameterData` literal setting `Name`, `Description`, `Required`;
the remaining fields take their zero values (`Kind` being the first enum
constant, `DataType` the empty string). -/
structure ParameterData where
  Name : String
  Description : String
  Required : Bool
  Kind : ParameterKind := ParameterKind.Path
  DataType : String := ""
  deriving Repr, DecidableEq

/-- Modelled from the spec: a documentation `Parameter` wrapping its data
record, as the sources construct it (`Parameter\x7b&ParameterData\x7b...\x7d\x7d`). -/
structure Parameter where
  data : ParameterData
  deriving Repr, DecidableEq

/-- Modelled from the spec: `bePath` marks the parameter as a Path-kind
parameter (not in the sources; spec §3 lists the kinds). -/
def Parameter.bePath (p : Parameter) : Parameter :=
  { p with data := { p.data with Kind := ParameterKind.Path } }

/-- Modelled from the spec: `beQuery` marks the parameter as a Query-kind
parameter. -/
def Parameter.beQuery (p : Parameter) : Parameter :=
  { p with data := { p.data with Kind := ParameterKind.Query } }

/-- Modelled from the spec: `beBody` marks the parameter as a Body-kind
parameter. -/
def Parameter.beBody (p : Parameter) : Parameter :=
  { p with data := { p.data with Kind := ParameterKind.Body } }

/-- Modelled from the spec: a `FilterFunction` is an opaque, composable unit
of request processing (§3); its body is outside the core, so it is modelled
as an abstract identifier that only supports identity comparison. -/
structure FilterFunction where
  id : Nat
  deriving Repr, DecidableEq

/-- Modelled from the spec: an immutable `Route` record (§3): HTTP method,
complete path template, produced/consumed content types, documentation
parameters, route-local filters and an opaque handler reference. -/
structure Route where
  Method : String
  Path : String
  Produces : List String
  Consumes : List String
  parameters : List Parameter
  filters : List FilterFunction
  handler : Option Nat
  deriving Repr, DecidableEq

/-- Abbreviation fixing the top-level `Route` type for use inside the
`WebService` namespace, where the name `Route` would otherwise refer to the
`WebService.Route` method. -/
abbrev RouteList := List Route

/-- Modelled from the spec: the mutable fluent `RouteBuilder` (§2, §4.2):
it accumulates the service root path, the route's own sub-path, the HTTP
method and metadata, and finalizes into an immutable `Route`.  `produces`
and `consumes` are `Option`s: `none` models the Go `nil` slice, meaning the
route did not override the service defaults. -/
structure RouteBuilder where
  rootPath : String := ""
  currentPath : String := ""
  httpMethod : String := ""
  produces : Option (List String) := none
  consumes : Option (List String) := none
  parameters : List Parameter := []
  filters : List FilterFunction := []
  handler : Option Nat := none
  deriving Repr, DecidableEq

/-- Modelled from the spec: the zero value of a fresh `new(RouteBuilder)`. -/
def RouteBuilder.new : RouteBuilder := {}

/-- Modelled from the spec: `servicePath` seeds the builder with the owning
service's root path (§4.2: builder factories "pre-seed method and service
root path"). -/
def RouteBuilder.servicePath (b : RouteBuilder) (path : String) : RouteBuilder :=
  { b with rootPath := path }

/-- Modelled from the spec: `Method` sets the builder's HTTP method. -/
def RouteBuilder.Method (b : RouteBuilder) (m : String) : RouteBuilder :=
  { b with httpMethod := m }

/-- Modelled from the spec: `Path` sets the builder's own sub-path. -/
def RouteBuilder.Path (b : RouteBuilder) (subPath : String) : RouteBuilder :=
  { b with currentPath := subPath }

/-- Modelled from the spec: `copyDefaults` copies the service-level default
produces/consumes onto the builder when the builder did not override them
(§4.2); an overriding builder keeps its own lists. -/
def RouteBuilder.copyDefaults (b : RouteBuilder)
    (rootProduces rootConsumes : List String) : RouteBuilder :=
  { b with
    produces := match b.produces with
      | none => some rootProduces
      | some l => some l
    consumes := match b.consumes with
      | none => some rootConsumes
      | some l => some l }

/-- Modelled from the spec: the builder "combines the Service's root path
with the Route's own sub-path to form the complete path template" (§4.2);
the two parts are joined with a `/` separator. -/
def concatPath (path1 path2 : String) : String :=
  path1 ++ "/" ++ path2

/-- Modelled from the spec: `Build` finalizes the mutable builder into an
immutable `Route` (§2, §9): the complete template is the combination of
root path and sub-path, and the content-type lists are the builder's
(post-`copyDefaults`) lists, the Go `nil` slice becoming the empty list. -/
def RouteBuilder.Build (b : RouteBuilder) : Route :=
  { Method := b.httpMethod
    Path := concatPath b.rootPath b.currentPath
    Produces := b.produces.getD []
    Consumes := b.consumes.getD []
    parameters := b.parameters
    filters := b.filters
    handler := b.handler }

/-- The `WebService` struct of `web_service.go`: root path, cached
compilation of the root path, ordered routes, default produces/consumes,
shared documentation parameters, and the service filter chain.  Go `nil`
pointers and slices become `Option`/`List`. -/
structure WebService where
  rootPath : String := ""
  pathExpression : Option PathExpression := none
  routes : List Route := []
  produces : List String := []
  consumes : List String := []
  pathParameters : List Parameter := []
  filters : List FilterFunction := []
  deriving Repr, DecidableEq

/-- Modelled from the spec: a freshly created service (§6 `newService()`);
the sources contain no constructor, so this is Go's zero value for the
`WebService` struct. -/
def WebService.new : WebService := {}

/-- `WebService.Path` from `web_service.go`: stores `root` as the root path,
compiles it, and on compilation failure calls `log.Fatalf`, aborting
registration — modelled as returning `none`; on success the compiled
expression is cached and the updated service returned. -/
def WebService.Path (s : WebService) (root : String) : Option WebService :=
  let s1 := { s with rootPath := root }
  match NewPathExpression root with
  | Except.error _ => none
  | Except.ok compiled => some { s1 with pathExpression := some compiled }

/-- `WebService.RootExpression` from `web_service.go`. -/
def WebService.RootExpression (s : WebService) : Option PathExpression :=
  s.pathExpression

/-- `WebService.Param` from `web_service.go`: appends a shared documentation
parameter (the Go `nil`-slice initialization is a no-op in the list
model). -/
def WebService.Param (s : WebService) (parameter : Parameter) : WebService :=
  { s with pathParameters := s.pathParameters ++ [parameter] }

/-- `WebService.PathParameter` from `web_service.go`: builds a required
Path-kind documentation parameter; the receiver is returned unchanged
alongside it. -/
def WebService.PathParameter (s : WebService) (name description : String) :
    WebService × Parameter :=
  let p : Parameter := { data := { Name := name, Description := description, Required := true } }
  (s, p.bePath)

/-- `WebService.QueryParameter` from `web_service.go`: builds an optional
Query-kind documentation parameter; the receiver is returned unchanged
alongside it. -/
def WebService.QueryParameter (s : WebService) (name description : String) :
    WebService × Parameter :=
  let p : Parameter := { data := { Name := name, Description := description, Required := false } }
  (s, p.beQuery)

/-- `WebService.BodyParameter` from `web_service.go`: builds a required
Body-kind documentation parameter; the receiver is returned unchanged
alongside it. -/
def WebService.BodyParameter (s : WebService) (name description : String) :
    WebService × Parameter :=
  let p : Parameter := { data := { Name := name, Description := description, Required := true } }
  (s, p.beBody)

/-- `WebService.Route` from `web_service.go`: copies the service defaults
onto the builder, builds the route, and appends it to the ordered route
list. -/
def WebService.Route (s : WebService) (builder : RouteBuilder) : WebService :=
  let b := builder.copyDefaults s.produces s.consumes
  { s with routes := s.routes ++ [b.Build] }

/-- `WebService.Method` from `web_service.go`: a fresh builder seeded with
the current root path and the given HTTP method; the receiver is returned
unchanged alongside it. -/
def WebService.Method (s : WebService) (httpMethod : String) :
    WebService × RouteBuilder :=
  (s, (RouteBuilder.new.servicePath s.rootPath).Method httpMethod)

/-- `WebService.Produces` from `web_service.go`: replaces the default
produced content types. -/
def WebService.Produces (s : WebService) (contentTypes : List String) : WebService :=
  { s with produces := contentTypes }

/-- `WebService.Consumes` from `web_service.go`: replaces the default
consumed content types. -/
def WebService.Consumes (s : WebService) (accepts : List String) : WebService :=
  { s with consumes := accepts }

/-- `WebService.Routes` from `web_service.go`. -/
def WebService.Routes (s : WebService) : RouteList :=
  s.routes

/-- `WebService.RootPath` from `web_service.go`. -/
def WebService.RootPath (s : WebService) : String :=
  s.rootPath

/-- `WebService.PathParameters` from `web_service.go`. -/
def WebService.PathParameters (s : WebService) : List Parameter :=
  s.pathParameters

/-- `WebService.Filters` from `web_service.go`. -/
def WebService.Filters (s : WebService) : List FilterFunction :=
  s.filters

/-- `WebService.Filter` from `web_service.go`: appends a filter to the
service filter chain. -/
def WebService.Filter (s : WebService) (filter : FilterFunction) : WebService :=
  { s with filters := s.filters ++ [filter] }

/-- `WebService.GET` from `web_service.go`: shortcut for
`Method("GET").Path(subPath)`; the receiver is returned unchanged. -/
def WebService.GET (s : WebService) (subPath : String) :
    WebService × RouteBuilder :=
  (s, ((RouteBuilder.new.servicePath s.rootPath).Method "GET").Path subPath)

/-- `WebService.POST` from `web_service.go`: shortcut for
`Method("POST").Path(subPath)`; the receiver is returned unchanged. -/
def WebService.POST (s : WebService) (subPath : String) :
    WebService × RouteBuilder :=
  (s, ((RouteBuilder.new.servicePath s.rootPath).Method "POST").Path subPath)

/-- `WebService.PUT` from `web_service.go`: shortcut for
`Method("PUT").Path(subPath)`; the receiver is returned unchanged. -/
def WebService.PUT (s : WebService) (subPath : String) :
    WebService × RouteBuilder :=
  (s, ((RouteBuilder.new.servicePath s.rootPath).Method "PUT").Path subPath)

/-- `WebService.DELETE` from `web_service.go`: shortcut for
`Method("DELETE").Path(subPath)`; the receiver is returned unchanged. -/
def WebService.DELETE (s : WebService) (subPath : String) :
    WebService × RouteBuilder :=
  (s, ((RouteBuilder.new.servicePath s.rootPath).Method "DELETE").Path subPath)

/-- Folding `WebService.Route` over a sequence of builders: the state after
a sequence of `Route` calls in the given order. -/
def routeAll (s : WebService) (bs : List RouteBuilder) : WebService :=
  bs.foldl WebService.Route s

/-- Folding `WebService.Filter` over a sequence of filters: the state after
a sequence of `Filter` calls in the given order. -/
def filterAll (s : WebService) (fs : List FilterFunction) : WebService :=
  fs.foldl WebService.Filter s

/-- Helper: `WebService.Path` only succeeds with a service whose root path
is the given template. -/
theorem path_sets_rootPath (s s2 : WebService) (root : String)
    (h : s.Path root = some s2) : s2.rootPath = root := by
  unfold WebService.Path at h
  cases hn : NewPathExpression root with
  | error msg =>
    rw [hn] at h
    exact Option.noConfusion h
  | ok e =>
    rw [hn] at h
    injection h with h
    subst h
    rfl

/-- C1: `WebService.Route` appends exactly one route — the one built from
the given builder after the service defaults are copied — to the end of the
route list, and after any sequence of `Route` calls `Routes` returns the
built routes in exactly the order in which `Route` was called. -/
theorem spec_C1 (s : WebService) (bs : List RouteBuilder) :
    (∀ b : RouteBuilder,
      (s.Route b).Routes = s.Routes ++ [(b.copyDefaults s.produces s.consumes).Build]) ∧
    (routeAll s bs).Routes =
      s.Routes ++ bs.map (fun b => (b.copyDefaults s.produces s.consumes).Build) := by
  refine ⟨fun b => rfl, ?_⟩
  induction bs generalizing s with
  | nil => simp [routeAll, WebService.Routes]
  | cons b bs ih =>
    calc (routeAll s (b :: bs)).Routes
        = (routeAll (s.Route b) bs).Routes := rfl
      _ = (s.Route b).Routes ++
            bs.map (fun x => (x.copyDefaults s.produces s.consumes).Build) := ih (s.Route b)
      _ = (s.Routes ++ [(b.copyDefaults s.produces s.consumes).Build]) ++
            bs.map (fun x => (x.copyDefaults s.produces s.consumes).Build) := rfl
      _ = s.Routes ++ (b :: bs).map (fun x => (x.copyDefaults s.produces s.consumes).Build) := by
            simp

/-- C2: `WebService.Route` copies the service-level default produces and
consumes onto the builder before `Build`, so the appended route carries the
builder's own lists when it overrode them and the service defaults
otherwise. -/
theorem spec_C2 (s : WebService) (b : RouteBuilder) :
    (s.Route b).Routes.getLast? = some ((b.copyDefaults s.produces s.consumes).Build) ∧
    ((b.copyDefaults s.produces s.consumes).Build).Produces = b.produces.getD s.produces ∧
    ((b.copyDefaults s.produces s.consumes).Build).Consumes = b.consumes.getD s.consumes := by
  refine ⟨?_, ?_, ?_⟩
  · show (s.routes ++ [(b.copyDefaults s.produces s.consumes).Build]).getLast? = _
    simp
  · cases hb : b.produces <;>
      simp [RouteBuilder.copyDefaults, RouteBuilder.Build, hb]
  · cases hb : b.consumes <;>
      simp [RouteBuilder.copyDefaults, RouteBuilder.Build, hb]

/-- C3: `WebService.Path` stores the root and its compiled expression and
returns the service when the template compiles, so `RootPath` and
`RootExpression` afterwards report the new root and its compilation; when
compilation fails, registration aborts fatally (no service value is
produced). -/
theorem spec_C3 (s : WebService) (root : String) :
    (∀ e : PathExpression, NewPathExpression root = Except.ok e →
      s.Path root = some { s with rootPath := root, pathExpression := some e } ∧
      ∀ s2 : WebService, s.Path root = some s2 →
        s2.RootPath = root ∧ s2.RootExpression = some e) ∧
    (∀ msg : String, NewPathExpression root = Except.error msg →
      s.Path root = none) := by
  constructor
  · intro e he
    have h1 : s.Path root = some { s with rootPath := root, pathExpression := some e } := by
      unfold WebService.Path
      rw [he]
    refine ⟨h1, fun s2 h2 => ?_⟩
    rw [h1] at h2
    injection h2 with h2
    subst h2
    exact ⟨rfl, rfl⟩
  · intro msg hmsg
    unfold WebService.Path
    rw [hmsg]

/-- Witness for C3 at concrete inputs: the valid template `/users` is
stored together with its compilation, and the template `/x/{a}/{a}` with a
repeated parameter name aborts registration. -/
theorem spec_C3_witness :
    WebService.new.Path "/users" =
      some { WebService.new with
              rootPath := "/users",
              pathExpression := some { source := "/users", segments := ["", "users"] } } ∧
    WebService.new.Path "/x/{a}/{a}" = none :=
  ⟨((spec_C3 WebService.new "/users").1
      { source := "/users", segments := ["", "users"] } rfl).1,
   (spec_C3 WebService.new "/x/{a}/{a}").2 "duplicate parameter name" rfl⟩

/-- C4, evaluation at the failing input: a freshly created `WebService` has
the empty root path, and `Path ""` succeeds (the empty template compiles)
and leaves the root path empty — so `RootPath` returns the empty string,
contradicting the claimed non-emptiness invariant and the source's own
doc comment that the default is `/`. -/
theorem spec_C4_eval :
    WebService.new.RootPath = "" ∧
    WebService.new.Path "" =
      some { WebService.new with pathExpression := some { source := "", segments := [""] } } ∧
    (WebService.new.Path "").map WebService.RootPath = some "" :=
  ⟨rfl, rfl, rfl⟩

/-- C5: `Method`, `GET`, `POST`, `PUT` and `DELETE` each leave the service
unchanged and return a fresh builder pre-seeded with the service's current
root path, the HTTP method, and (for the verb shortcuts) the sub-path. -/
theorem spec_C5 (s : WebService) (verb p : String) :
    ((s.Method verb).1 = s ∧
      (s.Method verb).2 =
        { RouteBuilder.new with rootPath := s.rootPath, httpMethod := verb }) ∧
    ((s.GET p).1 = s ∧
      (s.GET p).2 =
        { RouteBuilder.new with rootPath := s.rootPath, httpMethod := "GET", currentPath := p }) ∧
    ((s.POST p).1 = s ∧
      (s.POST p).2 =
        { RouteBuilder.new with rootPath := s.rootPath, httpMethod := "POST", currentPath := p }) ∧
    ((s.PUT p).1 = s ∧
      (s.PUT p).2 =
        { RouteBuilder.new with rootPath := s.rootPath, httpMethod := "PUT", currentPath := p }) ∧
    ((s.DELETE p).1 = s ∧
      (s.DELETE p).2 =
        { RouteBuilder.new with rootPath := s.rootPath, httpMethod := "DELETE", currentPath := p }) :=
  ⟨⟨rfl, rfl⟩, ⟨rfl, rfl⟩, ⟨rfl, rfl⟩, ⟨rfl, rfl⟩, ⟨rfl, rfl⟩⟩

/-- C6: `WebService.Filter` appends the filter to the end of the service
filter chain, and after any sequence of `Filter` calls `Filters` returns
the functions in exactly registration order. -/
theorem spec_C6 (s : WebService) (fs : List FilterFunction) :
    (∀ f : FilterFunction, (s.Filter f).Filters = s.Filters ++ [f]) ∧
    (filterAll s fs).Filters = s.Filters ++ fs := by
  refine ⟨fun f => rfl, ?_⟩
  induction fs generalizing s with
  | nil => simp [filterAll, WebService.Filters]
  | cons f fs ih =>
    calc (filterAll s (f :: fs)).Filters
        = (filterAll (s.Filter f) fs).Filters := rfl
      _ = (s.Filter f).Filters ++ fs := ih (s.Filter f)
      _ = (s.Filters ++ [f]) ++ fs := rfl
      _ = s.Filters ++ (f :: fs) := by simp

/-- C7: `WebService.Route` changes only the route list — root path, cached
root expression, default produces/consumes, shared path parameters and the
filter chain are identical before and after the call. -/
theorem spec_C7 (s : WebService) (b : RouteBuilder) :
    (s.Route b).rootPath = s.rootPath ∧
    (s.Route b).pathExpression = s.pathExpression ∧
    (s.Route b).produces = s.produces ∧
    (s.Route b).consumes = s.consumes ∧
    (s.Route b).pathParameters = s.pathParameters ∧
    (s.Route b).filters = s.filters :=
  ⟨rfl, rfl, rfl, rfl, rfl, rfl⟩

/-- C8: `Produces` and `Consumes` replace the service's entire default
content-type lists — a second call discards what an earlier call set. -/
theorem spec_C8 (s : WebService) (ts1 ts2 as1 as2 : List String) :
    (s.Produces ts1).produces = ts1 ∧
    ((s.Produces ts1).Produces ts2).produces = ts2 ∧
    (s.Consumes as1).consumes = as1 ∧
    ((s.Consumes as1).Consumes as2).consumes = as2 :=
  ⟨rfl, rfl, rfl, rfl⟩

/-- C9: `PathParameter` yields a required Path-kind parameter,
`BodyParameter` a required Body-kind parameter, `QueryParameter` an
optional Query-kind parameter; each carries the given name and description
and leaves the service unchanged. -/
theorem spec_C9 (s : WebService) (name description : String) :
    ((s.PathParameter name description).1 = s ∧
      (s.PathParameter name description).2.data.Kind = ParameterKind.Path ∧
      (s.PathParameter name description).2.data.Required = true ∧
      (s.PathParameter name description).2.data.Name = name ∧
      (s.PathParameter name description).2.data.Description = description) ∧
    ((s.QueryParameter name description).1 = s ∧
      (s.QueryParameter name description).2.data.Kind = ParameterKind.Query ∧
      (s.QueryParameter name description).2.data.Required = false ∧
      (s.QueryParameter name description).2.data.Name = name ∧
      (s.QueryParameter name description).2.data.Description = description) ∧
    ((s.BodyParameter name description).1 = s ∧
      (s.BodyParameter name description).2.data.Kind = ParameterKind.Body ∧
      (s.BodyParameter name description).2.data.Required = true ∧
      (s.BodyParameter name description).2.data.Name = name ∧
      (s.BodyParameter name description).2.data.Description = description) :=
  ⟨⟨rfl, rfl, rfl, rfl, rfl⟩, ⟨rfl, rfl, rfl, rfl, rfl⟩, ⟨rfl, rfl, rfl, rfl, rfl⟩⟩

/-- C10: a builder created by `Method` (or a verb shortcut) captures the
root path at creation time: after a later successful `Path newRoot` on the
service, the earlier builder still carries the old root path, which differs
from the updated service's root path whenever the roots differ. -/
theorem spec_C10 (s : WebService) (verb p newRoot : String) (s2 : WebService)
    (h : ((s.Method verb).1).Path newRoot = some s2)
    (hne : s.rootPath ≠ newRoot) :
    (s.Method verb).2.rootPath = s.rootPath ∧
    (s.GET p).2.rootPath = s.rootPath ∧
    (s.POST p).2.rootPath = s.rootPath ∧
    (s.PUT p).2.rootPath = s.rootPath ∧
    (s.DELETE p).2.rootPath = s.rootPath ∧
    s2.rootPath = newRoot ∧
    (s.Method verb).2.rootPath ≠ s2.rootPath := by
  have h2 : s2.rootPath = newRoot := path_sets_rootPath s s2 newRoot h
  refine ⟨rfl, rfl, rfl, rfl, rfl, h2, ?_⟩
  rw [h2]
  exact hne

/-- Concrete service used by the witness of C10: root path `/old`. -/
def svcOld : WebService := { WebService.new with rootPath := "/old" }

/-- Concrete service used by the witness of C10: the result of
`svcOld.Path "/new"`. -/
def svcNew2 : WebService :=
  { rootPath := "/new",
    pathExpression := some { source := "/new", segments := ["", "new"] } }

/-- Witness for C10 at concrete inputs: a builder made from the service
rooted at `/old` keeps `/old` after the service is re-rooted at `/new`. -/
theorem spec_C10_witness :
    (svcOld.Method "GET").2.rootPath = svcOld.rootPath ∧
    (svcOld.GET "/x").2.rootPath = svcOld.rootPath ∧
    (svcOld.POST "/x").2.rootPath = svcOld.rootPath ∧
    (svcOld.PUT "/x").2.rootPath = svcOld.rootPath ∧
    (svcOld.DELETE "/x").2.rootPath = svcOld.rootPath ∧
    svcNew2.rootPath = "/new" ∧
    (svcOld.Method "GET").2.rootPath ≠ svcNew2.rootPath :=
  spec_C10 svcOld "GET" "/x" "/new" svcNew2 rfl (by decide)
